import Mathlib

/-!
Verification of the financial projection engine of an investment
simulator.  The engine consists of a compounding calculator, a
year-by-year ledger builder, a portfolio aggregator over weighted asset
classes, and a risk and scenario analyzer.  Monetary quantities and
rates are modelled as rational numbers; the Python float arithmetic is
idealised as exact field arithmetic.
-/

/-- Compounding frequency selector of the calculator. -/
inductive CompoundFrequency
  | monthly
  | yearly
deriving DecidableEq

/-- The six asset classes of the portfolio mode. -/
inductive Asset
  | stocks_kr
  | stocks_global
  | reits
  | bonds
  | deposits
  | crypto
deriving DecidableEq

/-- Default expected annual return per asset class, from the reference
table of the source.  The extra single-asset key of the source table is
used only by the out-of-scope simple mode and is omitted. -/
def DEFAULT_RETURNS : Asset → ℚ
  | Asset.stocks_kr => 8/100
  | Asset.stocks_global => 10/100
  | Asset.reits => 5/100
  | Asset.bonds => 35/1000
  | Asset.deposits => 3/100
  | Asset.crypto => 15/100

/-- Annual volatility (standard deviation) per asset class, from the
reference table of the source. -/
def ASSET_VOLATILITY : Asset → ℚ
  | Asset.stocks_kr => 20/100
  | Asset.stocks_global => 18/100
  | Asset.reits => 15/100
  | Asset.bonds => 5/100
  | Asset.deposits => 1/100
  | Asset.crypto => 70/100

/-- Compounding calculator: future value of a lump sum plus monthly
payments.  Mirrors the source: the period rate and count are derived
from the frequency, the principal term is always compounded, and the
payment term uses the annuity formula only when the period rate is
strictly positive, falling back to payment times period count
otherwise. -/
def calculate_future_value (principal monthly_payment annual_rate : ℚ)
    (years : ℕ) (compound_frequency : CompoundFrequency) : ℚ :=
  let r : ℚ :=
    match compound_frequency with
    | CompoundFrequency.monthly => annual_rate / 12
    | CompoundFrequency.yearly => annual_rate
  let n : ℕ :=
    match compound_frequency with
    | CompoundFrequency.monthly => years * 12
    | CompoundFrequency.yearly => years
  let fv_principal := principal * (1 + r) ^ n
  let fv_payments :=
    if 0 < r then monthly_payment * (((1 + r) ^ n - 1) / r)
    else monthly_payment * (n : ℚ)
  fv_principal + fv_payments

/-- Period rate derived from the annual rate and the frequency, as in
the head of the calculator. -/
def period_rate : CompoundFrequency → ℚ → ℚ
  | CompoundFrequency.monthly, annual_rate => annual_rate / 12
  | CompoundFrequency.yearly, annual_rate => annual_rate

/-- Period count derived from the horizon and the frequency, as in the
head of the calculator. -/
def period_count : CompoundFrequency → ℕ → ℕ
  | CompoundFrequency.monthly, years => years * 12
  | CompoundFrequency.yearly, years => years

/-- One row of the year-by-year ledger. -/
structure YearRecord where
  year : ℕ
  beginning_balance : ℚ
  annual_investment : ℚ
  interest_earned : ℚ
  ending_balance : ℚ
  total_invested : ℚ
  total_interest : ℚ
deriving DecidableEq

/-- One monthly compounding step of the ledger builder. -/
def monthly_step (annual_rate monthly_payment balance : ℚ) : ℚ :=
  balance * (1 + annual_rate / 12) + monthly_payment

/-- Twelve monthly compounding steps, the inner loop of one ledger
year. -/
def year_step (annual_rate monthly_payment : ℚ) (balance : ℚ) : ℚ :=
  (monthly_step annual_rate monthly_payment)^[12] balance

/-- Loop body of the ledger builder: given the year index, the number
of remaining years, the running balance and the running invested total,
emit the remaining year records.  The interest field is the balance at
the start of the year times the annual rate, computed before the twelve
monthly steps, and the recorded beginning balance is derived backwards
from the ending balance, exactly as in the source. -/
def buildYears (monthly_payment annual_rate : ℚ) :
    ℕ → ℕ → ℚ → ℚ → List YearRecord
  | _, 0, _, _ => []
  | year, Nat.succ rem, current_balance, total_invested =>
    let yearly_return := current_balance * annual_rate
    let yearly_investment := monthly_payment * 12
    let new_balance := year_step annual_rate monthly_payment current_balance
    let new_invested := total_invested + yearly_investment
    { year := year
      beginning_balance := new_balance - yearly_return - yearly_investment
      annual_investment := yearly_investment
      interest_earned := yearly_return
      ending_balance := new_balance
      total_invested := new_invested
      total_interest := new_balance - new_invested } ::
      buildYears monthly_payment annual_rate (year + 1) rem new_balance new_invested

/-- Year-by-year ledger builder of the source: one record per year,
starting from the principal as both the initial balance and the initial
invested total. -/
def generate_year_by_year_data (principal monthly_payment annual_rate : ℚ)
    (years : ℕ) : List YearRecord :=
  buildYears monthly_payment annual_rate 1 years principal principal

/-- Closed form of the record emitted at offset i of the ledger loop
started at the given year index, balance and invested total. -/
def ledger_entry (monthly_payment annual_rate : ℚ) (year i : ℕ)
    (bal inv : ℚ) : YearRecord :=
  let f := year_step annual_rate monthly_payment
  { year := year + i
    beginning_balance := f^[i + 1] bal - f^[i] bal * annual_rate - monthly_payment * 12
    annual_investment := monthly_payment * 12
    interest_earned := f^[i] bal * annual_rate
    ending_balance := f^[i + 1] bal
    total_invested := inv + monthly_payment * 12 * ((i : ℚ) + 1)
    total_interest := f^[i + 1] bal - (inv + monthly_payment * 12 * ((i : ℚ) + 1)) }

/-- One row of the portfolio data frame: a ledger row tagged with its
asset class and allocation weight. -/
structure AssetYearRecord extends YearRecord where
  asset : Asset
  allocation : ℚ
deriving DecidableEq

/-- Portfolio aggregator of the source: for every asset with positive
weight, scale the principal and the monthly payment by the weight, run
the ledger builder with the asset return, and tag the rows; assets with
nonpositive weight contribute nothing, and an empty result list plays
the role of the empty data frame. -/
def calculate_portfolio_returns (allocations : List (Asset × ℚ))
    (returns : Asset → ℚ) (principal monthly_payment : ℚ)
    (years : ℕ) : List AssetYearRecord :=
  allocations.flatMap fun pr =>
    if 0 < pr.2 then
      (generate_year_by_year_data (principal * pr.2) (monthly_payment * pr.2)
          (returns pr.1) years).map
        fun rec => { toYearRecord := rec, asset := pr.1, allocation := pr.2 }
    else []

/-- Per-asset future values computed inside the aggregator loop: the
source calls the calculator without a frequency argument, so the
monthly default applies. -/
def portfolio_asset_fvs (allocations : List (Asset × ℚ))
    (returns : Asset → ℚ) (principal monthly_payment : ℚ)
    (years : ℕ) : List (Asset × ℚ) :=
  (allocations.filter fun pr => decide (0 < pr.2)).map fun pr =>
    (pr.1, calculate_future_value (principal * pr.2) (monthly_payment * pr.2)
      (returns pr.1) years CompoundFrequency.monthly)

/-- Outcome of the portfolio performance callback: either the no-data
view or a view of the computed portfolio data frame. -/
inductive PerformanceView
  | noData
  | view (df : List AssetYearRecord)
deriving DecidableEq

/-- Control flow of the portfolio performance callback around the
aggregator: an empty allocation store yields the no-data view, then the
amounts are scaled from ten-thousand units, and an empty aggregation
result also yields the no-data view. -/
def update_portfolio_performance (allocations : List (Asset × ℚ))
    (initial monthly : ℚ) (years : ℕ) : PerformanceView :=
  if allocations.isEmpty then PerformanceView.noData
  else
    let portfolio_df := calculate_portfolio_returns allocations DEFAULT_RETURNS
      (initial * 10000) (monthly * 10000) years
    if portfolio_df.isEmpty then PerformanceView.noData
    else PerformanceView.view portfolio_df

/-- Weighted expected return of an allocation, summed over every entry
of the allocation store as in the performance callback. -/
def weighted_return (allocations : List (Asset × ℚ))
    (returns : Asset → ℚ) : ℚ :=
  (allocations.map fun pr => pr.2 * returns pr.1).sum

/-- Sum of squared weight times squared volatility over the allocation
store; the portfolio volatility of the source is its square root.  The
membership filter of the source is vacuous here because every asset of
the store has a volatility entry. -/
def portfolio_variance (allocations : List (Asset × ℚ)) : ℚ :=
  (allocations.map fun pr => pr.2 ^ 2 * ASSET_VOLATILITY pr.1 ^ 2).sum

/-- Sharpe ratio computation of the performance callback as a function
of the weighted return and the portfolio volatility: the excess return
over the fixed risk-free rate of three percent divided by the
volatility when the volatility is positive, zero otherwise. -/
def sharpe_from (weighted vol : ℚ) : ℚ :=
  if 0 < vol then (weighted - 3/100) / vol else 0

/-- A named market scenario: a return multiplier and a volatility
label multiplier. -/
structure ScenarioAdjustment where
  multiplier : ℚ
  volatility_mult : ℚ
deriving DecidableEq

/-- Bull scenario constants of the source. -/
def scenario_bull : ScenarioAdjustment := { multiplier := 3/2, volatility_mult := 6/5 }

/-- Bear scenario constants of the source. -/
def scenario_bear : ScenarioAdjustment := { multiplier := 3/10, volatility_mult := 9/5 }

/-- Normal scenario constants of the source. -/
def scenario_normal : ScenarioAdjustment := { multiplier := 1, volatility_mult := 1 }

/-- Adjusted return table of the scenario callback: every asset return
is multiplied by the scenario return multiplier. -/
def adjust_returns (s : ScenarioAdjustment) (returns : Asset → ℚ) : Asset → ℚ :=
  fun a => returns a * s.multiplier

/-- Scenario analysis data frame: the aggregator re-run on the adjusted
default return table with the amounts scaled from ten-thousand units,
as in the scenario callback. -/
def scenario_portfolio_df (s : ScenarioAdjustment)
    (allocations : List (Asset × ℚ)) (initial monthly : ℚ)
    (years : ℕ) : List AssetYearRecord :=
  calculate_portfolio_returns allocations (adjust_returns s DEFAULT_RETURNS)
    (initial * 10000) (monthly * 10000) years

/-- Unrolled form of the twelve monthly steps of one ledger year, used
to evaluate concrete ledgers. -/
lemma year_step_eval (annual_rate monthly_payment b : ℚ) :
    year_step annual_rate monthly_payment b =
      monthly_step annual_rate monthly_payment (monthly_step annual_rate monthly_payment
        (monthly_step annual_rate monthly_payment (monthly_step annual_rate monthly_payment
          (monthly_step annual_rate monthly_payment (monthly_step annual_rate monthly_payment
            (monthly_step annual_rate monthly_payment (monthly_step annual_rate monthly_payment
              (monthly_step annual_rate monthly_payment (monthly_step annual_rate monthly_payment
                (monthly_step annual_rate monthly_payment
                  (monthly_step annual_rate monthly_payment b))))))))))) := rfl

/-- Every record the ledger loop emits has the closed form given by
ledger_entry: the interest field is the year-start balance times the
annual rate, the ending balance is one more application of the twelve
monthly steps, and the invested total grows linearly. -/
lemma buildYears_get?_eq (monthly_payment annual_rate : ℚ) (rem : ℕ) :
    ∀ (year i : ℕ) (bal inv : ℚ) (rec : YearRecord),
      (buildYears monthly_payment annual_rate year rem bal inv).get? i = some rec →
      rec = ledger_entry monthly_payment annual_rate year i bal inv := by
  induction rem with
  | zero =>
    intro year i bal inv rec h
    simp [buildYears] at h
  | succ rem ih =>
    intro year i bal inv rec h
    cases i with
    | zero =>
      simp only [buildYears, List.get?_cons_zero, Option.some.injEq] at h
      subst h
      simp only [ledger_entry, Function.iterate_one, Function.iterate_zero_apply,
        Nat.add_zero, Nat.cast_zero, zero_add, mul_one]
    | succ i =>
      simp only [buildYears, List.get?_cons_succ] at h
      rw [ih (year + 1) i (year_step annual_rate monthly_payment bal)
        (inv + monthly_payment * 12) rec h]
      have e1 : (year_step annual_rate monthly_payment)^[i + 1 + 1] bal =
          (year_step annual_rate monthly_payment)^[i + 1]
            (year_step annual_rate monthly_payment bal) :=
        Function.iterate_succ_apply (year_step annual_rate monthly_payment) (i + 1) bal
      have e2 : (year_step annual_rate monthly_payment)^[i + 1] bal =
          (year_step annual_rate monthly_payment)^[i]
            (year_step annual_rate monthly_payment bal) :=
        Function.iterate_succ_apply (year_step annual_rate monthly_payment) i bal
      simp only [ledger_entry]
      rw [e1, e2, YearRecord.mk.injEq]
      refine ⟨by omega, rfl, rfl, rfl, rfl, by push_cast; ring, by push_cast; ring⟩

/-- Specialisation of the loop lemma to the ledger builder entry
point. -/
lemma generate_get?_eq (principal monthly_payment annual_rate : ℚ) (years i : ℕ)
    (rec : YearRecord)
    (h : (generate_year_by_year_data principal monthly_payment annual_rate years).get? i =
      some rec) :
    rec = ledger_entry monthly_payment annual_rate 1 i principal principal :=
  buildYears_get?_eq monthly_payment annual_rate years 1 i principal principal rec h

/-- Telescoping sum of per-step gains of an iterated map. -/
lemma iterate_telescope_sum (g : ℚ → ℚ) (x c : ℚ) (k : ℕ) :
    (Finset.range k).sum (fun j => g^[j + 1] x - g^[j] x - c) = g^[k] x - x - c * k := by
  induction k with
  | zero => simp
  | succ k ih =>
    rw [Finset.sum_range_succ, ih]
    push_cast
    ring

/-- The aggregator yields the empty data frame when no allocation
entry has positive weight. -/
lemma portfolio_returns_eq_nil (allocations : List (Asset × ℚ)) (returns : Asset → ℚ)
    (principal monthly_payment : ℚ) (years : ℕ)
    (h : ∀ pr ∈ allocations, ¬ 0 < pr.2) :
    calculate_portfolio_returns allocations returns principal monthly_payment years = [] := by
  induction allocations with
  | nil => rfl
  | cons hd tl ih =>
    have h1 : ¬ 0 < hd.2 := h hd (List.mem_cons_self hd tl)
    have h2 : ∀ pr ∈ tl, ¬ 0 < pr.2 := fun pr hpr => h pr (List.mem_cons_of_mem hd hpr)
    simp only [calculate_portfolio_returns, List.flatMap_cons, if_neg h1, List.nil_append]
    simp only [calculate_portfolio_returns] at ih
    exact ih h2

/-- Claim C1, counterexample: at principal 0, contribution 1, annual
rate minus one half, horizon 2 years, yearly frequency, the derived
period rate is the nonzero value minus one half, yet the calculator
returns 2 (the fallback contribution term) while the annuity formula of
the claim gives 3/2. -/
theorem claim1_counterexample :
    calculate_future_value 0 1 (-(1/2)) 2 CompoundFrequency.yearly = 2 ∧
    (0:ℚ) * (1 + -(1/2)) ^ 2 + 1 * (((1 + -(1/2)) ^ 2 - 1) / -(1/2)) = 3/2 ∧
    (2:ℚ) ≠ 3/2 := by
  refine ⟨?_, by norm_num, by norm_num⟩
  norm_num [calculate_future_value]

/-- Claim C1, amended: the calculator returns the annuity future-value
formula exactly when the derived period rate is strictly positive, and
the fallback contribution term, contribution times period count, for
every nonpositive period rate, negative rates included; negative rates
never error, they are simply routed to the fallback. -/
theorem claim1_amended_branches (principal monthly_payment annual_rate : ℚ)
    (years : ℕ) (f : CompoundFrequency) :
    (0 < period_rate f annual_rate →
      calculate_future_value principal monthly_payment annual_rate years f =
        principal * (1 + period_rate f annual_rate) ^ period_count f years +
          monthly_payment *
            (((1 + period_rate f annual_rate) ^ period_count f years - 1) /
              period_rate f annual_rate)) ∧
    (period_rate f annual_rate ≤ 0 →
      calculate_future_value principal monthly_payment annual_rate years f =
        principal * (1 + period_rate f annual_rate) ^ period_count f years +
          monthly_payment * (period_count f years : ℚ)) := by
  cases f <;>
    refine ⟨fun h => ?_, fun h => ?_⟩ <;>
      simp only [calculate_future_value, period_rate, period_count] at h ⊢
  · rw [if_pos h]
  · rw [if_neg (not_lt.mpr h)]
  · rw [if_pos h]
  · rw [if_neg (not_lt.mpr h)]

/-- Claim C1, witness: the amended theorem applied at a negative yearly
rate, where the fallback branch fires, and at a positive monthly rate,
where the annuity branch fires. -/
theorem claim1_witness :
    calculate_future_value 1 1 (-(1/2)) 2 CompoundFrequency.yearly =
        1 * (1 + period_rate CompoundFrequency.yearly (-(1/2))) ^
            period_count CompoundFrequency.yearly 2 +
          1 * (period_count CompoundFrequency.yearly 2 : ℚ) ∧
    calculate_future_value 1 1 (6/100) 1 CompoundFrequency.monthly =
        1 * (1 + period_rate CompoundFrequency.monthly (6/100)) ^
            period_count CompoundFrequency.monthly 1 +
          1 * (((1 + period_rate CompoundFrequency.monthly (6/100)) ^
              period_count CompoundFrequency.monthly 1 - 1) /
            period_rate CompoundFrequency.monthly (6/100)) :=
  ⟨(claim1_amended_branches 1 1 (-(1/2)) 2 CompoundFrequency.yearly).2
      (by norm_num [period_rate]),
   (claim1_amended_branches 1 1 (6/100) 1 CompoundFrequency.monthly).1
      (by norm_num [period_rate])⟩

/-- Claim C4, counterexample: with a negative principal the ledger
builder computes an ordinary numeric ledger, and with horizon zero the
calculator returns the principal; no invalid-parameter refusal or
error signal exists anywhere in the engine. -/
theorem claim4_counterexample :
    generate_year_by_year_data (-1) 0 12 1 =
      [{ year := 1, beginning_balance := -4084, annual_investment := 0,
         interest_earned := -12, ending_balance := -4096, total_invested := -1,
         total_interest := -4095 }] ∧
    calculate_future_value (-1) 10 (6/100) 0 CompoundFrequency.monthly = -1 := by
  constructor
  · norm_num [generate_year_by_year_data, buildYears, year_step_eval, monthly_step]
  · norm_num [calculate_future_value]

/-- Claim C4, amended: the engine performs no invalid-parameter check
at all: every call computes and returns a value; a nonpositive horizon
yields the empty ledger from the builder and the unchanged principal
from the calculator, and negative principals or contributions flow
through the same formulas unimpeded. -/
theorem claim4_amended_no_validation (principal monthly_payment annual_rate : ℚ)
    (f : CompoundFrequency) :
    generate_year_by_year_data principal monthly_payment annual_rate 0 = [] ∧
    calculate_future_value principal monthly_payment annual_rate 0 f = principal := by
  refine ⟨rfl, ?_⟩
  cases f <;> simp [calculate_future_value]

/-- Claim C9: with zero periodic contribution the calculator returns
exactly principal times one plus the period rate, to the power of the
period count, for every rate sign and both frequencies. -/
theorem claim9_zero_contribution (principal annual_rate : ℚ) (years : ℕ)
    (f : CompoundFrequency) (hp : 0 ≤ principal) (hy : 0 < years) :
    calculate_future_value principal 0 annual_rate years f =
      principal * (1 + period_rate f annual_rate) ^ period_count f years := by
  cases f <;> simp [calculate_future_value, period_rate, period_count]

/-- Claim C9, witness: the zero-contribution theorem applied at
principal 2, rate one fifth, horizon one year, monthly frequency. -/
theorem claim9_witness :
    calculate_future_value 2 0 (1/5) 1 CompoundFrequency.monthly =
      2 * (1 + period_rate CompoundFrequency.monthly (1/5)) ^
        period_count CompoundFrequency.monthly 1 :=
  claim9_zero_contribution 2 (1/5) 1 CompoundFrequency.monthly (by norm_num) (by norm_num)

/-- Claim C2, counterexample: in the ledger for principal 1, no
contributions, annual rate 12, one year, the single emitted record has
interest 12 and recorded beginning balance 4084, while the ending
balance 4096 is not the image of the recorded beginning balance under
the twelve monthly steps; reading the beginning balance as the true
year-start balance 1 instead, the ending balance is its twelve-step
image but the interest field 12 differs from ending minus beginning
minus contributions, which is 4095. -/
theorem claim2_counterexample :
    generate_year_by_year_data 1 0 12 1 =
      [{ year := 1, beginning_balance := 4084, annual_investment := 0,
         interest_earned := 12, ending_balance := 4096, total_invested := 1,
         total_interest := 4095 }] ∧
    (¬ ∀ rec ∈ generate_year_by_year_data 1 0 12 1,
        rec.ending_balance = (monthly_step 12 0)^[12] rec.beginning_balance ∧
        rec.interest_earned =
          rec.ending_balance - rec.beginning_balance - rec.annual_investment) ∧
    (monthly_step 12 0)^[12] (1:ℚ) = 4096 ∧
    (12:ℚ) ≠ 4096 - 1 - 0 := by
  have hled : generate_year_by_year_data 1 0 12 1 =
      [{ year := 1, beginning_balance := 4084, annual_investment := 0,
         interest_earned := 12, ending_balance := 4096, total_invested := 1,
         total_interest := 4095 }] := by
    norm_num [generate_year_by_year_data, buildYears, year_step_eval, monthly_step]
  refine ⟨hled, ?_, ?_, by norm_num⟩
  · intro hall
    rw [hled] at hall
    have h := (hall _ (List.mem_singleton_self _)).1
    have h2 : (4096:ℚ) = (monthly_step 12 0)^[12] 4084 := h
    have h3 : (monthly_step 12 0)^[12] (4084:ℚ) = 16728064 := by
      rw [show (monthly_step 12 0)^[12] (4084:ℚ) = year_step 12 0 4084 from rfl,
        year_step_eval]
      norm_num [monthly_step]
    rw [h3] at h2
    norm_num at h2
  · rw [show (monthly_step 12 0)^[12] (1:ℚ) = year_step 12 0 1 from rfl, year_step_eval]
    norm_num [monthly_step]

/-- Claim C2, amended: in every emitted year record the interest field
equals the true year-start balance times the annual rate (a simple
interest precomputation, not the compounded gain), the ending balance
is the twelve-monthly-step image of the true year-start balance, the
contribution field is twelve monthly payments, and the recorded
beginning balance is derived backwards as ending minus interest minus
contributions. -/
theorem claim2_amended_ledger_fields (principal monthly_payment annual_rate : ℚ)
    (years i : ℕ) (rec : YearRecord)
    (h : (generate_year_by_year_data principal monthly_payment annual_rate years).get? i =
      some rec) :
    rec.interest_earned =
      (year_step annual_rate monthly_payment)^[i] principal * annual_rate ∧
    rec.ending_balance =
      (year_step annual_rate monthly_payment)^[i + 1] principal ∧
    rec.beginning_balance =
      rec.ending_balance - rec.interest_earned - rec.annual_investment ∧
    rec.annual_investment = monthly_payment * 12 := by
  rw [generate_get?_eq principal monthly_payment annual_rate years i rec h]
  exact ⟨rfl, rfl, rfl, rfl⟩

/-- Claim C2, witness: the amended theorem applied to the second year
record of the ledger for principal 1, no contributions, annual rate 12,
two years. -/
theorem claim2_witness :
    (YearRecord.mk 2 16728064 0 49152 16777216 1 16777215).interest_earned =
      (year_step 12 0)^[1] 1 * 12 ∧
    (YearRecord.mk 2 16728064 0 49152 16777216 1 16777215).ending_balance =
      (year_step 12 0)^[1 + 1] 1 ∧
    (YearRecord.mk 2 16728064 0 49152 16777216 1 16777215).beginning_balance =
      (YearRecord.mk 2 16728064 0 49152 16777216 1 16777215).ending_balance -
        (YearRecord.mk 2 16728064 0 49152 16777216 1 16777215).interest_earned -
        (YearRecord.mk 2 16728064 0 49152 16777216 1 16777215).annual_investment ∧
    (YearRecord.mk 2 16728064 0 49152 16777216 1 16777215).annual_investment = 0 * 12 :=
  claim2_amended_ledger_fields 1 0 12 2 1
    (YearRecord.mk 2 16728064 0 49152 16777216 1 16777215)
    (by norm_num [generate_year_by_year_data, buildYears, year_step_eval, monthly_step,
      List.get?])

/-- Claim C3, counterexample: in the ledger for principal 1, no
contributions, annual rate 12, one year, the cumulative-interest field
of the only record is 4095, while the running sum of the per-year
interest-earned fields is 12. -/
theorem claim3_counterexample :
    ((generate_year_by_year_data 1 0 12 1).map fun rec => rec.interest_earned).sum = 12 ∧
    ((generate_year_by_year_data 1 0 12 1).map fun rec => rec.total_interest) = [4095] ∧
    (4095:ℚ) ≠ 12 := by
  have hled : generate_year_by_year_data 1 0 12 1 =
      [{ year := 1, beginning_balance := 4084, annual_investment := 0,
         interest_earned := 12, ending_balance := 4096, total_invested := 1,
         total_interest := 4095 }] := by
    norm_num [generate_year_by_year_data, buildYears, year_step_eval, monthly_step]
  rw [hled]
  refine ⟨by simp, by simp, by norm_num⟩

/-- Claim C3, amended: the cumulative-interest field of every record
equals its ending balance minus its cumulative-invested field, which is
also the running sum of the true net yearly gains, ending balance of
year j minus its true year-start balance minus its contributions, over
all years up to and including the record; it is not the running sum of
the recorded interest-earned fields. -/
theorem claim3_amended_cumulative (principal monthly_payment annual_rate : ℚ)
    (years i : ℕ) (rec : YearRecord)
    (h : (generate_year_by_year_data principal monthly_payment annual_rate years).get? i =
      some rec) :
    rec.total_interest = rec.ending_balance - rec.total_invested ∧
    rec.total_interest =
      (Finset.range (i + 1)).sum fun j =>
        (year_step annual_rate monthly_payment)^[j + 1] principal -
          (year_step annual_rate monthly_payment)^[j] principal -
          monthly_payment * 12 := by
  rw [generate_get?_eq principal monthly_payment annual_rate years i rec h]
  constructor
  · rfl
  · simp only [ledger_entry]
    rw [iterate_telescope_sum]
    push_cast
    ring

/-- Claim C3, witness: the amended theorem applied to the only record
of the ledger for principal 1, no contributions, annual rate 12, one
year. -/
theorem claim3_witness :
    (YearRecord.mk 1 4084 0 12 4096 1 4095).total_interest =
      (YearRecord.mk 1 4084 0 12 4096 1 4095).ending_balance -
        (YearRecord.mk 1 4084 0 12 4096 1 4095).total_invested ∧
    (YearRecord.mk 1 4084 0 12 4096 1 4095).total_interest =
      (Finset.range (0 + 1)).sum fun j =>
        (year_step 12 0)^[j + 1] 1 - (year_step 12 0)^[j] 1 - 0 * 12 :=
  claim3_amended_cumulative 1 0 12 1 0 (YearRecord.mk 1 4084 0 12 4096 1 4095)
    (by norm_num [generate_year_by_year_data, buildYears, year_step_eval, monthly_step,
      List.get?])

/-- Claim C5: the aggregator run on a single asset with weight one
produces, field for field, the same year records as the ledger builder
run directly on the full principal and contribution with that asset
return, tagged with the asset and weight. -/
theorem claim5_single_asset_equivalence (a : Asset) (returns : Asset → ℚ)
    (principal monthly_payment : ℚ) (years : ℕ) :
    calculate_portfolio_returns [(a, 1)] returns principal monthly_payment years =
      (generate_year_by_year_data principal monthly_payment (returns a) years).map
        fun rec => { toYearRecord := rec, asset := a, allocation := 1 } := by
  simp [calculate_portfolio_returns, zero_lt_one, mul_one]

/-- Claim C6: for the portfolio volatility, the nonnegative square root
of the variance form, the Sharpe computation returns excess return over
the three percent risk-free rate divided by the volatility whenever the
volatility is nonzero, returns zero when the volatility is zero, and
the volatility vanishes exactly when the variance form does, so the
division is always guarded. -/
theorem claim6_sharpe_branches (allocations : List (Asset × ℚ))
    (returns : Asset → ℚ) (vol : ℚ) (h0 : 0 ≤ vol)
    (h1 : vol ^ 2 = portfolio_variance allocations) :
    (vol ≠ 0 →
      sharpe_from (weighted_return allocations returns) vol =
        (weighted_return allocations returns - 3/100) / vol) ∧
    (vol = 0 → sharpe_from (weighted_return allocations returns) vol = 0) ∧
    (vol = 0 ↔ portfolio_variance allocations = 0) := by
  refine ⟨fun hne => ?_, fun hz => ?_, ?_, ?_⟩
  · simp only [sharpe_from]
    rw [if_pos (lt_of_le_of_ne h0 (Ne.symm hne))]
  · subst hz
    simp [sharpe_from]
  · intro hz
    rw [← h1, hz]
    ring
  · intro hv
    have hsq : vol ^ 2 = 0 := by rw [h1, hv]
    exact (pow_eq_zero_iff (two_ne_zero)).mp hsq

/-- Claim C6, witness: the Sharpe branch theorem applied to the
all-deposits allocation, whose variance form has the exact square root
one hundredth. -/
theorem claim6_witness :
    sharpe_from (weighted_return [(Asset.deposits, 1)] DEFAULT_RETURNS) (1/100) =
      (weighted_return [(Asset.deposits, 1)] DEFAULT_RETURNS - 3/100) / (1/100) :=
  (claim6_sharpe_branches [(Asset.deposits, 1)] DEFAULT_RETURNS (1/100)
      (by norm_num)
      (by simp [portfolio_variance, ASSET_VOLATILITY])).1 (by norm_num)

/-- Claim C7: when no allocation entry has positive weight the
aggregator returns the empty data frame and the performance callback
returns the no-data view, with no error raised. -/
theorem claim7_empty_allocation (allocations : List (Asset × ℚ))
    (returns : Asset → ℚ) (principal monthly_payment initial monthly : ℚ)
    (years : ℕ) (h : ∀ pr ∈ allocations, ¬ 0 < pr.2) :
    calculate_portfolio_returns allocations returns principal monthly_payment years = [] ∧
    update_portfolio_performance allocations initial monthly years =
      PerformanceView.noData := by
  refine ⟨portfolio_returns_eq_nil allocations returns principal monthly_payment years h, ?_⟩
  unfold update_portfolio_performance
  by_cases he : allocations.isEmpty
  · rw [if_pos he]
  · rw [if_neg he]
    have hnil := portfolio_returns_eq_nil allocations DEFAULT_RETURNS (initial * 10000)
      (monthly * 10000) years h
    simp [hnil]

/-- Claim C7, witness: the empty-allocation theorem applied to a store
holding a single zero-weight asset. -/
theorem claim7_witness :
    calculate_portfolio_returns [(Asset.crypto, 0)] DEFAULT_RETURNS 5 7 3 = [] ∧
    update_portfolio_performance [(Asset.crypto, 0)] 5 7 3 = PerformanceView.noData :=
  claim7_empty_allocation [(Asset.crypto, 0)] DEFAULT_RETURNS 5 7 5 7 3 (by simp)

/-- Claim C8: the normal scenario, with return multiplier one,
reproduces the unadjusted portfolio data frame exactly for every
allocation, amount pair and horizon. -/
theorem claim8_normal_scenario_identity (allocations : List (Asset × ℚ))
    (initial monthly : ℚ) (years : ℕ) :
    scenario_portfolio_df scenario_normal allocations initial monthly years =
      calculate_portfolio_returns allocations DEFAULT_RETURNS (initial * 10000)
        (monthly * 10000) years := by
  have hadj : adjust_returns scenario_normal DEFAULT_RETURNS = DEFAULT_RETURNS := by
    funext a
    simp [adjust_returns, scenario_normal]
  simp only [scenario_portfolio_df]
  rw [hadj]

/-- Claim C10: every per-asset future value the aggregator computes
uses the monthly conversion, period rate equal to the asset return over
twelve and period count equal to twelve times the horizon, because the
aggregator passes no frequency argument and the calculator defaults to
monthly; the frequency selector therefore cannot influence any
portfolio-mode result. -/
theorem claim10_monthly_frequency (allocations : List (Asset × ℚ))
    (returns : Asset → ℚ) (principal monthly_payment : ℚ) (years : ℕ) :
    portfolio_asset_fvs allocations returns principal monthly_payment years =
      (allocations.filter fun pr => decide (0 < pr.2)).map fun pr =>
        (pr.1,
          principal * pr.2 * (1 + returns pr.1 / 12) ^ (years * 12) +
            if 0 < returns pr.1 / 12 then
              monthly_payment * pr.2 *
                (((1 + returns pr.1 / 12) ^ (years * 12) - 1) / (returns pr.1 / 12))
            else monthly_payment * pr.2 * ((years * 12 : ℕ) : ℚ)) := rfl
